import Mathlib

/-!
# Verification of the ScandEval model-setup and benchmark utilities

Shallow embedding of:
* `src/src/scandeval/model_setups/utils.py`
  (`align_model_and_tokenizer`, `get_children_of_module`,
  `setup_model_for_question_answering`)
* `src/scandeval/angry_tweets.py`
  (`AngryTweetsBenchmark._compute_metrics`, `AngryTweetsBenchmark._log_metrics`)

Python in-place mutation is modelled by explicit state passing: `align`
returns the final model and tokenizer states together with an optional
`InvalidBenchmark` error message (the states at the moment the exception is
raised, so that "does not mutate" claims are expressible).
-/

namespace ScandEval

/-- Configuration attributes of a pretrained model (`model.config`).
`none` models an absent attribute (failing `hasattr`) or a Python `None`. -/
structure ModelConfig where
  max_position_embeddings : Option Nat
  vocab_size : Option Nat
  type_vocab_size : Option Nat
  pad_token_id : Option Nat
deriving Repr, DecidableEq

/-- A pretrained model: its configuration together with the number of rows of
its input embedding table (the part of the model state that
`resize_token_embeddings` changes). -/
structure Model where
  config : ModelConfig
  embeddingSize : Nat
deriving Repr, DecidableEq

/-- Tokenizer attributes inspected and mutated by `align_model_and_tokenizer`.
`model_max_length` is an `Int` because the position-embedding signal
`max_position_embeddings - pad_token_id - 1` can be negative in Python.
`none` models an absent attribute or a Python `None`. -/
structure Tokenizer where
  model_max_length : Option Int
  vocab_size : Option Nat
  pad_token : Option String
  pad_token_id : Option Nat
  eos_token : Option String
  eos_token_id : Option Nat
  sep_token : Option String
  sep_token_id : Option Nat
  max_model_input_sizes : List (String × Option Nat)
  padding_side : String
deriving Repr, DecidableEq

/-- The list `all_max_lengths` built at the start of
`align_model_and_tokenizer`: the tokenizer's declared `model_max_length`
when present and `< 100_000`, then `max_position_embeddings - pad_token_id
- 1` when the model declares position embeddings and the tokenizer has a
non-`None` `pad_token_id`, then the non-`None` values of the tokenizer's
`max_model_input_sizes`. -/
def allMaxLengths (model : Model) (tokenizer : Tokenizer) : List Int :=
  (match tokenizer.model_max_length with
   | some v => if v < 100000 then [v] else []
   | none => []) ++
  (match model.config.max_position_embeddings, tokenizer.pad_token_id with
   | some mpe, some pid => [(mpe : Int) - (pid : Int) - 1]
   | _, _ => []) ++
  (tokenizer.max_model_input_sizes.filterMap fun p =>
    match p.2 with
    | some size => some ((size : Int))
    | none => none)

/-- The effective maximum length `align_model_and_tokenizer` assigns to
`tokenizer.model_max_length`: the minimum of `all_max_lengths` when that
list is nonempty, and the default `512` otherwise. -/
def effectiveMaxLength (model : Model) (tokenizer : Tokenizer) : Int :=
  match allMaxLengths model tokenizer with
  | [] => 512
  | x :: xs => (x :: xs).foldl min x

/-- Exit state of `align_model_and_tokenizer`: the final model and tokenizer
states, and `some msg` when the call raised `InvalidBenchmark msg` (the
model/tokenizer fields then hold the states at the moment of the raise). -/
structure AlignOutcome where
  err : Option String
  model : Model
  tokenizer : Tokenizer
deriving Repr, DecidableEq

/-- `model.resize_token_embeddings(new_num_tokens=n)`: sets the input
embedding table to `n` rows and updates `model.config.vocab_size` to `n`. -/
def resize_token_embeddings (model : Model) (n : Nat) : Model :=
  { model with
    embeddingSize := n
    config := { model.config with vocab_size := some n } }

/-- `align_model_and_tokenizer(model, tokenizer, raise_errors)` from
`src/src/scandeval/model_setups/utils.py`, with mutation made explicit:

1. sets `tokenizer.model_max_length` to the minimum of all available
   max-length signals, defaulting to `512`;
2. if both vocab sizes are declared and the model's is strictly smaller
   than the tokenizer's, raises `InvalidBenchmark` when `raise_errors` and
   otherwise resizes the model's embeddings to `tokenizer.vocab_size + 1`;
3. if the tokenizer has no pad token, reuses the EOS token (else the SEP
   token) as pad with left padding, propagating the id to
   `model.config.pad_token_id`, and raises `InvalidBenchmark` when neither
   exists. -/
def align_model_and_tokenizer (model : Model) (tokenizer : Tokenizer)
    (raise_errors : Bool) : AlignOutcome :=
  let tok1 : Tokenizer :=
    { tokenizer with model_max_length := some (effectiveMaxLength model tokenizer) }
  match model.config.vocab_size, tokenizer.vocab_size with
  | some mv, some tv =>
    if mv < tv then
      if raise_errors then
        { err := some "The vocab size of the tokenizer is larger than the vocab size of the model."
          model := model, tokenizer := tok1 }
      else
        alignPadToken (resize_token_embeddings model (tv + 1)) tok1
    else
      alignPadToken model tok1
  | _, _ => alignPadToken model tok1
where
  /-- The padding-token reconciliation block (lines 158-173 of the source). -/
  alignPadToken (model : Model) (tok : Tokenizer) : AlignOutcome :=
    match tok.pad_token with
    | some _ => { err := none, model := model, tokenizer := tok }
    | none =>
      match tok.eos_token with
      | some eos =>
        let tok2 := { tok with
          padding_side := "left"
          pad_token := some eos
          pad_token_id := tok.eos_token_id }
        { err := none
          model := { model with
            config := { model.config with pad_token_id := tok2.pad_token_id } }
          tokenizer := tok2 }
      | none =>
        match tok.sep_token with
        | some sep =>
          let tok2 := { tok with
            padding_side := "left"
            pad_token := some sep
            pad_token_id := tok.sep_token_id }
          { err := none
            model := { model with
              config := { model.config with pad_token_id := tok2.pad_token_id } }
            tokenizer := tok2 }
        | none =>
          { err := some "The tokenizer does not have a padding token and does not have a SEP token or EOS token to use as a padding token."
            model := model, tokenizer := tok }

/-! ## Module trees and `setup_model_for_question_answering` -/

/-- An `nn.Module` as seen by `get_children_of_module`: either a childless
module (a leaf, carrying an embedding weight matrix as a list of rows and a
`num_embeddings` attribute) or a module with named children. A `node` with
an empty child list also has no children in the Python sense. -/
inductive Module where
  | leaf (weight : List (List Int)) (num_embeddings : Nat) : Module
  | node (children : List (String × Module)) : Module

/-- The possible truthy return values of `get_children_of_module`: the
`token_type_embeddings` module itself, or a dict of child names to
recursively collected children. `Option Children` adds the `None` case. -/
inductive Children where
  | modRef (m : Module) : Children
  | dict (entries : List (String × Children)) : Children

/-- Python truthiness of a `get_children_of_module` result: a module is
truthy, a dict is truthy iff nonempty. -/
def Children.truthy : Children → Bool
  | .modRef _ => true
  | .dict entries => !entries.isEmpty

/-- The named children of a module (`module.named_children()`). -/
def Module.childList : Module → List (String × Module)
  | .leaf _ _ => []
  | .node cs => cs

mutual

/-- `get_children_of_module(name, module)`: for a childless module returns
the module itself when its name is `token_type_embeddings` and `None`
otherwise; for a module with children returns the dict of truthy recursive
results over its named children. -/
def get_children_of_module (name : String) (module : Module) : Option Children :=
  match module with
  | .leaf w n =>
    if name = "token_type_embeddings" then some (.modRef (.leaf w n)) else none
  | .node [] =>
    if name = "token_type_embeddings" then some (.modRef (.node [])) else none
  | .node (c :: cs) => some (.dict (childrenEntries (c :: cs)))

/-- The dict built by the `for subname, submodule in module.named_children()`
loop: an entry per child whose recursive result is truthy. -/
def childrenEntries : List (String × Module) → List (String × Children)
  | [] => []
  | (n, sub) :: rest =>
    match get_children_of_module n sub with
    | some c => if c.truthy then (n, c) :: childrenEntries rest else childrenEntries rest
    | none => childrenEntries rest

end

/-- The `while not done` loop of `setup_model_for_question_answering`,
collecting the first key of each nested dict until a non-dict value is hit.
`none` models the two abnormal cases: iterating over a module (an
`AttributeError` in Python) and an empty dict (the loop never terminates). -/
def attributeList : Children → Option (List String)
  | .modRef _ => none
  | .dict [] => none
  | .dict ((key, .modRef _) :: _) => some [key]
  | .dict ((key, .dict es) :: _) => (attributeList (.dict es)).map (key :: ·)

/-- The `getattr` chain `for attribute in attribute_list`: follow child
names from the root; `none` models an `AttributeError`. -/
def getAttrPath : Module → List String → Option Module
  | m, [] => some m
  | m, a :: rest =>
    match m.childList.find? (fun p => p.1 = a) with
    | some pr => getAttrPath pr.2 rest
    | none => none

/-- In-place assignment through an attribute path: apply `g` to the first
child matching each path component (Python mutates the aliased submodule
object, which is the first match of each `getattr`). -/
def modifyEntries : List (String × Module) → String → (Module → Module) →
    List (String × Module)
  | [], _, _ => []
  | (n, sub) :: tail, a, g =>
    if n = a then (n, g sub) :: tail else (n, sub) :: modifyEntries tail a g

/-- Apply `g` to the submodule reached by the attribute path, leaving the
rest of the tree unchanged. -/
def modifyAttrPath : Module → List String → (Module → Module) → Module
  | m, [], g => g m
  | .leaf w n, _ :: _, _ => .leaf w n
  | .node cs, a :: rest, g =>
    .node (modifyEntries cs a (fun sub => modifyAttrPath sub rest g))

/-- A model as seen by `setup_model_for_question_answering`: its submodule
tree and its configuration. -/
structure QAModel where
  tree : Module
  config : ModelConfig

/-- `setup_model_for_question_answering(model)` with mutation made explicit.
`rand` is the value of `torch.rand_like(token_type_embeddings.weight.data)`:
a tensor of the same shape as the weight filled with random values, passed
in as a parameter since it is the only nondeterministic input. Returns
`none` only on the abnormal paths (attribute walk failure), which are
unreachable for trees produced by the pruning of `get_children_of_module`. -/
def setup_model_for_question_answering (rand : List (List Int))
    (model : QAModel) : Option QAModel :=
  match get_children_of_module "model" model.tree with
  | none => some model
  | some children =>
    if children.truthy then
      match attributeList children with
      | none => none
      | some attrs =>
        match getAttrPath model.tree attrs with
        | some (.leaf w _) =>
          let tree2 := if w.length = 1
            then modifyAttrPath model.tree attrs (fun _ => .leaf (w ++ rand) 2)
            else model.tree
          some { tree := tree2
                 config := { model.config with type_vocab_size := some 2 } }
        | _ => none
    else some model

/-! ## `AngryTweetsBenchmark` metric computation and logging -/

/-- A float value that is either a rational number or NaN (`none`). The
standard error returned by `_get_stats` is NaN when only one repetition was
run. -/
abbrev NanFloat := Option ℚ

/-- Multiplication on possibly-NaN floats: NaN absorbs. -/
def NanFloat.scale (a : NanFloat) (k : ℚ) : NanFloat :=
  match a with
  | some x => some (x * k)
  | none => none

/-- The content of the summary message built by
`AngryTweetsBenchmark._log_metrics`: either the branch with `+-`
standard-error qualifiers or the branch with means only. -/
inductive LogMessage where
  | withStdErr (train_mean train_std_err test_mean test_std_err : NanFloat) : LogMessage
  | withoutStdErr (train_mean test_mean : NanFloat) : LogMessage
deriving Repr, DecidableEq

/-- `AngryTweetsBenchmark._log_metrics` from `src/scandeval/angry_tweets.py`
(lines 97-116), starting from the `_get_stats` results for the two splits:
scales all four statistics by 100, then branches on
`not np.isnan(train_std_err)`. -/
def log_metrics (train_mean train_std_err test_mean test_std_err : NanFloat) :
    LogMessage :=
  let tm := train_mean.scale 100
  let te := train_std_err.scale 100
  let sm := test_mean.scale 100
  let se := test_std_err.scale 100
  match te with
  | some e => .withStdErr tm (some e) sm se
  | none => .withoutStdErr tm sm

/-- `np.argmax` over one row of per-class scores: the index of the first
maximal element (`np.argmax` returns the first occurrence). The value on an
empty row is irrelevant (`np.argmax` raises there). -/
def argmaxRow (row : List ℚ) : Nat :=
  match row with
  | [] => 0
  | x :: xs => go xs 1 0 x
where
  go : List ℚ → Nat → Nat → ℚ → Nat
    | [], _, best, _ => best
    | x :: xs, i, best, bestVal =>
      if bestVal < x then go xs (i + 1) i x else go xs (i + 1) best bestVal

/-- `predictions.argmax(axis=-1)`: per-example argmax over the class axis. -/
def argmaxLastAxis (predictions : List (List ℚ)) : List Nat :=
  predictions.map argmaxRow

/-- Per-class F1 of integer predictions against gold labels:
`2*TP / (2*TP + FP + FN)`, and `0` when that denominator is `0`. Models one
class of the external `f1` metric (sklearn `f1_score`). -/
def classF1 (preds refs : List Nat) (c : Nat) : ℚ :=
  let pairs := preds.zip refs
  let tp := (pairs.filter (fun p => p.1 = c ∧ p.2 = c)).length
  let fp := (pairs.filter (fun p => p.1 = c ∧ p.2 ≠ c)).length
  let fnn := (pairs.filter (fun p => p.1 ≠ c ∧ p.2 = c)).length
  if 2 * tp + fp + fnn = 0 then 0
  else (2 * tp : ℚ) / ((2 * tp + fp + fnn : ℕ) : ℚ)

/-- `self._metric.compute(predictions=..., references=..., average="macro")`:
the external macro-averaged F1 collaborator — the unweighted mean of
per-class F1 over the classes occurring in the predictions or references. -/
def macroF1 (preds refs : List Nat) : ℚ :=
  let classes := (preds ++ refs).dedup
  if classes.isEmpty then 0
  else (classes.map (classF1 preds refs)).sum / (classes.length : ℚ)

/-- `AngryTweetsBenchmark._compute_metrics` (lines 83-91): takes the argmax
of the per-class scores along the last axis, applies the macro-F1 reduction,
and returns the singleton mapping `{"macro_f1": ...}`. -/
def compute_metrics (predictions : List (List ℚ)) (labels : List Nat) :
    List (String × ℚ) :=
  [("macro_f1", macroF1 (argmaxLastAxis predictions) labels)]

/-! ## Spec-side characterizations (for refinement claims) -/

/-- Spec-side comparison definition for the tokenizer-only case: the
effective max length computed from the tokenizer's own signals alone (the
declared `model_max_length` below the 100,000 sentinel and the non-null
`max_model_input_sizes`), mentioning no model attribute at all, with the 512
default. -/
def specTokenizerOnlyMaxLength (tokenizer : Tokenizer) : Int :=
  ((match tokenizer.model_max_length with
    | some v => if v < 100000 then [v] else []
    | none => []) ++
   (tokenizer.max_model_input_sizes.filterMap fun p =>
     match p.2 with
     | some size => some ((size : Int))
     | none => none)).min?.getD 512

/-! ## Helper lemmas about `align_model_and_tokenizer` -/

theorem alignPadToken_tokenizer_mml (m : Model) (t : Tokenizer) :
    (align_model_and_tokenizer.alignPadToken m t).tokenizer.model_max_length
      = t.model_max_length := by
  unfold align_model_and_tokenizer.alignPadToken
  cases t.pad_token <;> cases t.eos_token <;> cases t.sep_token <;> simp

theorem alignPadToken_model_embeddingSize (m : Model) (t : Tokenizer) :
    (align_model_and_tokenizer.alignPadToken m t).model.embeddingSize
      = m.embeddingSize := by
  unfold align_model_and_tokenizer.alignPadToken
  cases t.pad_token <;> cases t.eos_token <;> cases t.sep_token <;> simp

theorem align_tokenizer_mml (m : Model) (t : Tokenizer) (re : Bool) :
    (align_model_and_tokenizer m t re).tokenizer.model_max_length
      = some (effectiveMaxLength m t) := by
  unfold align_model_and_tokenizer
  cases hmv : m.config.vocab_size <;> cases htv : t.vocab_size <;>
    simp [alignPadToken_tokenizer_mml]
  split
  · split
    · simp
    · simp [alignPadToken_tokenizer_mml]
  · simp [alignPadToken_tokenizer_mml]

theorem effectiveMaxLength_eq_min? (m : Model) (t : Tokenizer) :
    effectiveMaxLength m t = ((allMaxLengths m t).min?.getD 512) := by
  unfold effectiveMaxLength
  cases h : allMaxLengths m t with
  | nil => rfl
  | cons x xs => simp [List.min?, List.foldl, min_self]

theorem mem_allMaxLengths (m : Model) (t : Tokenizer) (x : Int) :
    x ∈ allMaxLengths m t ↔
      ((∃ v, t.model_max_length = some v ∧ v < 100000 ∧ x = v) ∨
       (∃ mpe pid, m.config.max_position_embeddings = some mpe ∧
          t.pad_token_id = some pid ∧ x = (mpe : Int) - (pid : Int) - 1) ∨
       (∃ p ∈ t.max_model_input_sizes, ∃ n, p.2 = some n ∧ x = (n : Int))) := by
  unfold allMaxLengths
  simp only [List.mem_append, List.mem_filterMap]
  constructor
  · rintro ((h1 | h2) | h3)
    · left
      cases hm : t.model_max_length with
      | none => rw [hm] at h1; simp at h1
      | some v =>
        rw [hm] at h1
        by_cases hv : v < 100000
        · simp [hv] at h1; exact ⟨v, rfl, hv, h1⟩
        · simp [hv] at h1
    · right; left
      cases hp : m.config.max_position_embeddings with
      | none => rw [hp] at h2; simp at h2
      | some mpe =>
        cases hq : t.pad_token_id with
        | none => rw [hp, hq] at h2; simp at h2
        | some pid =>
          rw [hp, hq] at h2
          simp at h2
          exact ⟨mpe, pid, rfl, rfl, h2⟩
    · right; right
      obtain ⟨p, hp, hx⟩ := h3
      refine ⟨p, hp, ?_⟩
      cases hs : p.2 with
      | none => rw [hs] at hx; simp at hx
      | some n => rw [hs] at hx; simp at hx; exact ⟨n, rfl, hx.symm⟩
  · rintro (⟨v, hv, hlt, rfl⟩ | ⟨mpe, pid, hp, hq, rfl⟩ | ⟨p, hp, n, hn, rfl⟩)
    · left; left; rw [hv]; simp [hlt]
    · left; right; rw [hp, hq]; simp
    · right; exact ⟨p, hp, by rw [hn]⟩

theorem alignPadToken_err_of_none (m : Model) (t : Tokenizer)
    (hp : t.pad_token = none) (he : t.eos_token = none)
    (hs : t.sep_token = none) :
    (align_model_and_tokenizer.alignPadToken m t).err.isSome = true := by
  obtain ⟨mml, vs, pt, pti, et, eti, st, sti, sizes, ps⟩ := t
  cases pt with
  | some x => exact Option.noConfusion hp
  | none =>
    cases et with
    | some x => exact Option.noConfusion he
    | none =>
      cases st with
      | some x => exact Option.noConfusion hs
      | none => rfl

theorem alignPadToken_fallback (m : Model) (t : Tokenizer)
    (hp : t.pad_token = none)
    (hok : (align_model_and_tokenizer.alignPadToken m t).err = none) :
    (align_model_and_tokenizer.alignPadToken m t).tokenizer.padding_side = "left"
    ∧ (align_model_and_tokenizer.alignPadToken m t).tokenizer.pad_token
        = (match t.eos_token with
           | some e => some e
           | none => t.sep_token) := by
  obtain ⟨mml, vs, pt, pti, et, eti, st, sti, sizes, ps⟩ := t
  cases pt with
  | some x => exact Option.noConfusion hp
  | none =>
    cases et with
    | some e => exact ⟨rfl, rfl⟩
    | none =>
      cases st with
      | some s => exact ⟨rfl, rfl⟩
      | none => exact Option.noConfusion hok

/-- Example fixtures used by the witness theorems. -/
def exModel : Model :=
  { config := { max_position_embeddings := some 514, vocab_size := some 40
                type_vocab_size := none, pad_token_id := none }
    embeddingSize := 40 }

def exTokenizer : Tokenizer :=
  { model_max_length := some 1000000
    vocab_size := some 50
    pad_token := none
    pad_token_id := some 1
    eos_token := some "</s>"
    eos_token_id := some 2
    sep_token := none
    sep_token_id := none
    max_model_input_sizes := [("a", some 300)]
    padding_side := "right" }

def exTokenizerBare : Tokenizer :=
  { model_max_length := some 1000000
    vocab_size := some 50
    pad_token := none
    pad_token_id := none
    eos_token := none
    eos_token_id := none
    sep_token := none
    sep_token_id := none
    max_model_input_sizes := [("a", some 300)]
    padding_side := "right" }

/-! ## Claim theorems for the aligner -/

/-- C1: `align` sets the tokenizer's effective maximum sequence length to
the minimum over all available signals — the declared `model_max_length`
only when below 100,000, `max_position_embeddings - pad_token_id - 1` when
both are present, and every non-null per-architecture size in
`max_model_input_sizes` — defaulting to 512 when no signal is available
(`List.min?.getD 512`). The second conjunct characterizes exactly which
signals are available. -/
theorem align_sets_effective_max_length (m : Model) (t : Tokenizer) (re : Bool) :
    (align_model_and_tokenizer m t re).tokenizer.model_max_length
      = some ((allMaxLengths m t).min?.getD 512)
    ∧ ∀ x : Int, x ∈ allMaxLengths m t ↔
        ((∃ v, t.model_max_length = some v ∧ v < 100000 ∧ x = v) ∨
         (∃ mpe pid, m.config.max_position_embeddings = some mpe ∧
            t.pad_token_id = some pid ∧ x = (mpe : Int) - (pid : Int) - 1) ∨
         (∃ p ∈ t.max_model_input_sizes, ∃ n, p.2 = some n ∧ x = (n : Int))) :=
  ⟨by rw [align_tokenizer_mml, effectiveMaxLength_eq_min?],
   mem_allMaxLengths m t⟩

/-- Witness for C1: on the example pair, the declared length 1,000,000 is
ignored, the position signal is 514 - 1 - 1 = 512, the advertised size is
300, and the resulting max length is 300. -/
theorem align_sets_effective_max_length_witness :
    (align_model_and_tokenizer exModel exTokenizer false).tokenizer.model_max_length
      = some 300
    ∧ ((512 : Int) ∈ allMaxLengths exModel exTokenizer) := by
  have h := align_sets_effective_max_length exModel exTokenizer false
  refine ⟨?_, ?_⟩
  · rw [h.1]; rfl
  · rw [h.2 512]
    right; left
    exact ⟨514, 1, rfl, rfl, by decide⟩

/-- C2: with `raise_errors` and a model vocabulary strictly smaller than
the tokenizer's, `align` raises `InvalidBenchmark` and the model state at
the raise is the original model, unchanged. -/
theorem align_raises_on_vocab_conflict (m : Model) (t : Tokenizer)
    (mv tv : Nat) (hmv : m.config.vocab_size = some mv)
    (htv : t.vocab_size = some tv) (hlt : mv < tv) :
    ((align_model_and_tokenizer m t true).err.isSome = true)
    ∧ (align_model_and_tokenizer m t true).model = m := by
  unfold align_model_and_tokenizer
  rw [hmv, htv]
  simp [hlt]

/-- Witness for C2: model vocab 40 < tokenizer vocab 50 with
`raise_errors = true`. -/
theorem align_raises_on_vocab_conflict_witness :
    ((align_model_and_tokenizer exModel exTokenizer true).err.isSome = true)
    ∧ (align_model_and_tokenizer exModel exTokenizer true).model = exModel :=
  align_raises_on_vocab_conflict exModel exTokenizer 40 50 rfl rfl (by decide)

/-- C3: without `raise_errors`, a model vocabulary strictly smaller than
the tokenizer's makes `align` resize the model's input embedding table to
`tokenizer.vocab_size + 1` rows. -/
theorem align_resizes_embeddings_on_conflict (m : Model) (t : Tokenizer)
    (mv tv : Nat) (hmv : m.config.vocab_size = some mv)
    (htv : t.vocab_size = some tv) (hlt : mv < tv) :
    (align_model_and_tokenizer m t false).model.embeddingSize = tv + 1 := by
  unfold align_model_and_tokenizer
  rw [hmv, htv]
  simp [hlt, alignPadToken_model_embeddingSize, resize_token_embeddings]

/-- Witness for C3: model vocab 40 < tokenizer vocab 50, embedding resized
to 51 rows. -/
theorem align_resizes_embeddings_on_conflict_witness :
    (align_model_and_tokenizer exModel exTokenizer false).model.embeddingSize
      = 50 + 1 :=
  align_resizes_embeddings_on_conflict exModel exTokenizer 40 50 rfl rfl
    (by decide)

/-- C4: a tokenizer with no pad token, no EOS token and no SEP token makes
`align` raise `InvalidBenchmark`. -/
theorem align_raises_without_any_pad_token (m : Model) (t : Tokenizer)
    (re : Bool) (hp : t.pad_token = none) (he : t.eos_token = none)
    (hs : t.sep_token = none) :
    (align_model_and_tokenizer m t re).err.isSome = true := by
  obtain ⟨mml, vs, pt, pti, et, eti, st, sti, sizes, ps⟩ := t
  unfold align_model_and_tokenizer
  cases hmv : m.config.vocab_size with
  | none => exact alignPadToken_err_of_none _ _ hp he hs
  | some mv =>
    cases vs with
    | none => exact alignPadToken_err_of_none _ _ hp he hs
    | some tv =>
      dsimp only
      by_cases hlt : mv < tv
      · rw [if_pos hlt]
        cases re
        · exact alignPadToken_err_of_none _ _ hp he hs
        · rfl
      · rw [if_neg hlt]
        exact alignPadToken_err_of_none _ _ hp he hs

/-- Witness for C4: a tokenizer with none of the three tokens. -/
theorem align_raises_without_any_pad_token_witness :
    (align_model_and_tokenizer exModel exTokenizerBare false).err.isSome = true :=
  align_raises_without_any_pad_token exModel exTokenizerBare false rfl rfl rfl

/-- C5: when the tokenizer has no pad token and `align` succeeds, the
returned tokenizer pads on the left and its pad token is the EOS token when
one exists, and the SEP token otherwise. -/
theorem align_pad_token_fallback (m : Model) (t : Tokenizer) (re : Bool)
    (hp : t.pad_token = none)
    (hok : (align_model_and_tokenizer m t re).err = none) :
    (align_model_and_tokenizer m t re).tokenizer.padding_side = "left"
    ∧ (align_model_and_tokenizer m t re).tokenizer.pad_token
        = (match t.eos_token with
           | some e => some e
           | none => t.sep_token) := by
  obtain ⟨mml, vs, pt, pti, et, eti, st, sti, sizes, ps⟩ := t
  revert hok
  unfold align_model_and_tokenizer
  cases hmv : m.config.vocab_size with
  | none => exact fun hok => alignPadToken_fallback _ _ hp hok
  | some mv =>
    cases vs with
    | none => exact fun hok => alignPadToken_fallback _ _ hp hok
    | some tv =>
      dsimp only
      by_cases hlt : mv < tv
      · rw [if_pos hlt]
        cases re
        · exact fun hok => alignPadToken_fallback _ _ hp hok
        · exact fun hok => Option.noConfusion hok
      · rw [if_neg hlt]
        exact fun hok => alignPadToken_fallback _ _ hp hok

/-- Witness for C5: the example tokenizer has no pad token and an EOS token
`"</s>"`; aligned, it pads left with pad token `"</s>"`. -/
theorem align_pad_token_fallback_witness :
    (align_model_and_tokenizer exModel exTokenizer false).tokenizer.padding_side
      = "left"
    ∧ (align_model_and_tokenizer exModel exTokenizer false).tokenizer.pad_token
        = some "</s>" := by
  have h := align_pad_token_fallback exModel exTokenizer false rfl rfl
  exact ⟨h.1, h.2⟩

/-- C10: when the tokenizer's `pad_token_id` is `None` at call time, the
effective max length excludes the position-embedding signal: it equals a
value computed from the tokenizer alone, whatever the model declares — so
a pad token later synthesized from EOS or SEP never feeds that signal. -/
theorem align_max_length_ignores_pos_without_pad_id (m : Model) (t : Tokenizer)
    (re : Bool) (hp : t.pad_token_id = none) :
    (align_model_and_tokenizer m t re).tokenizer.model_max_length
      = some (specTokenizerOnlyMaxLength t) := by
  rw [align_tokenizer_mml, effectiveMaxLength_eq_min?]
  unfold allMaxLengths specTokenizerOnlyMaxLength
  rw [hp]
  cases m.config.max_position_embeddings <;> simp

/-- Witness for C10: the example model declares 514 position embeddings,
yet with `pad_token_id = None` the resulting max length (300) is the
tokenizer-only value. -/
theorem align_max_length_ignores_pos_without_pad_id_witness :
    exTokenizerBare.pad_token_id = none
    ∧ (align_model_and_tokenizer exModel exTokenizerBare false).tokenizer.model_max_length
        = some (specTokenizerOnlyMaxLength exTokenizerBare) :=
  ⟨rfl, align_max_length_ignores_pos_without_pad_id exModel exTokenizerBare
    false rfl⟩

/-! ## Helper lemmas about attribute paths -/

theorem find?_modifyEntries (a : String) (g : Module → Module)
    (cs : List (String × Module)) (pr : String × Module)
    (h : cs.find? (fun p => p.1 = a) = some pr) :
    (modifyEntries cs a g).find? (fun p => p.1 = a) = some (pr.1, g pr.2) := by
  induction cs with
  | nil => simp [List.find?] at h
  | cons c rest ih =>
    obtain ⟨n, sub⟩ := c
    by_cases hn : n = a
    · subst hn
      have hm : modifyEntries ((n, sub) :: rest) n g = (n, g sub) :: rest := by
        simp [modifyEntries]
      rw [hm, List.find?_cons_of_pos _ (by simp)]
      rw [List.find?_cons_of_pos _ (by simp)] at h
      injection h with h
      subst h
      rfl
    · have hm : modifyEntries ((n, sub) :: rest) a g
          = (n, sub) :: modifyEntries rest a g := by
        simp only [modifyEntries, if_neg hn]
      rw [hm, List.find?_cons_of_neg _ (by simp [hn])]
      rw [List.find?_cons_of_neg _ (by simp [hn])] at h
      exact ih h

theorem getAttrPath_modifyAttrPath (p : List String) :
    ∀ (m sub : Module) (g : Module → Module),
      getAttrPath m p = some sub →
      getAttrPath (modifyAttrPath m p g) p = some (g sub) := by
  induction p with
  | nil =>
    intro m sub g h
    simp [getAttrPath] at h ⊢
    rw [h]
    simp [modifyAttrPath]
  | cons a rest ih =>
    intro m sub g h
    cases m with
    | leaf w n => simp [getAttrPath, Module.childList, List.find?] at h
    | node cs =>
      simp only [getAttrPath, Module.childList] at h ⊢
      cases hf : cs.find? (fun p => p.1 = a) with
      | none => rw [hf] at h; exact Option.noConfusion h
      | some pr =>
        rw [hf] at h
        simp only [modifyAttrPath, Module.childList]
        rw [find?_modifyEntries a _ cs pr hf]
        exact ih pr.2 sub g h

/-! ## Claim theorems for `setup_model_for_question_answering` -/

/-- C6: (i) if the walk over the pruned children map reaches a token-type
embedding table with a single row of width `H`, then setup succeeds, the
table at that path afterwards is the original row followed by the random
row (two rows of width `H`, first row unchanged, `num_embeddings = 2`), and
the config's `type_vocab_size` is 2; (ii) a model with no token-type
embeddings (no truthy children) is returned unchanged. -/
theorem setup_qa_token_type_expansion (rand : List (List Int)) (m : QAModel) :
    (∀ (c : Children) (attrs : List String) (row row' : List Int) (ne H : Nat),
      get_children_of_module "model" m.tree = some c → c.truthy = true →
      attributeList c = some attrs →
      getAttrPath m.tree attrs = some (.leaf [row] ne) →
      rand = [row'] → row.length = H → row'.length = H →
      ∃ m', setup_model_for_question_answering rand m = some m'
        ∧ getAttrPath m'.tree attrs = some (.leaf [row, row'] 2)
        ∧ [row, row'].length = 2
        ∧ (∀ r ∈ [row, row'], r.length = H)
        ∧ [row, row'].headD [] = row
        ∧ m'.config.type_vocab_size = some 2)
    ∧ ((∀ c, get_children_of_module "model" m.tree = some c →
          c.truthy = false) →
        setup_model_for_question_answering rand m = some m) := by
  constructor
  · intro c attrs row row' ne H hc ht ha hg hr hrow hrow'
    subst hr
    refine ⟨{ tree := modifyAttrPath m.tree attrs
                (fun _ => .leaf ([row] ++ [row']) 2)
              config := { m.config with type_vocab_size := some 2 } },
            ?_, ?_, rfl, ?_, rfl, rfl⟩
    · simp only [setup_model_for_question_answering, hc, ht, if_true, ha, hg,
        List.length_cons, List.length_nil]
    · have := getAttrPath_modifyAttrPath attrs m.tree (.leaf [row] ne)
        (fun _ => .leaf ([row] ++ [row']) 2) hg
      simpa using this
    · intro r hrm
      simp only [List.mem_cons, List.not_mem_nil, or_false] at hrm
      rcases hrm with h | h
      · subst h; exact hrow
      · subst h; exact hrow'
  · intro hno
    unfold setup_model_for_question_answering
    cases hc : get_children_of_module "model" m.tree with
    | none => rfl
    | some c => simp [hno c hc]

/-- Example model tree for the QA witnesses: a BERT-style nesting with a
1-row token-type embedding table of width 2. -/
def exQATree : Module :=
  .node [("bert", .node [
    ("embeddings", .node [
      ("word_embeddings", .leaf [[1, 2], [3, 4]] 2),
      ("token_type_embeddings", .leaf [[5, 6]] 1)])])]

def exQAChildren : Children :=
  .dict [("bert", .dict [("embeddings", .dict [("token_type_embeddings",
    .modRef (.leaf [[5, 6]] 1))])])]

def exQAModel : QAModel :=
  { tree := exQATree
    config := { max_position_embeddings := some 512, vocab_size := some 40
                type_vocab_size := some 1, pad_token_id := none } }

/-- Witness for C6: the example model's 1-row table `[[5, 6]]` expands to
`[[5, 6], [7, 8]]` with the random row `[7, 8]`. -/
theorem setup_qa_token_type_expansion_witness :
    ∃ m', setup_model_for_question_answering [[7, 8]] exQAModel = some m'
      ∧ getAttrPath m'.tree ["bert", "embeddings", "token_type_embeddings"]
          = some (.leaf [[5, 6], [7, 8]] 2)
      ∧ [[5, 6], [7, 8]].length = 2
      ∧ (∀ r ∈ [[(5 : Int), 6], [7, 8]], r.length = 2)
      ∧ [[(5 : Int), 6], [7, 8]].headD [] = [5, 6]
      ∧ m'.config.type_vocab_size = some 2 := by
  apply (setup_qa_token_type_expansion [[7, 8]] exQAModel).1 exQAChildren
    ["bert", "embeddings", "token_type_embeddings"] [5, 6] [7, 8] 1 2
  · simp [get_children_of_module, childrenEntries, exQAModel, exQATree,
      exQAChildren, Children.truthy]
  · rfl
  · simp [attributeList, exQAChildren]
  · simp [getAttrPath, exQAModel, exQATree, Module.childList, List.find?]
  · rfl
  · rfl
  · rfl

/-- C7: on a model whose token-type embedding table already has at least
two rows, setup leaves the whole module tree — in particular the table's
shape and contents — unchanged, because the `shape[0] == 1` guard fails;
only the config's `type_vocab_size` is (re)written to 2. -/
theorem setup_qa_noop_on_expanded (rand : List (List Int)) (m : QAModel)
    (c : Children) (attrs : List String) (w : List (List Int)) (ne : Nat)
    (hc : get_children_of_module "model" m.tree = some c)
    (ht : c.truthy = true) (ha : attributeList c = some attrs)
    (hg : getAttrPath m.tree attrs = some (.leaf w ne))
    (hw : 2 ≤ w.length) :
    setup_model_for_question_answering rand m
      = some { tree := m.tree
               config := { m.config with type_vocab_size := some 2 } } := by
  have hne : ¬ w.length = 1 := by omega
  simp only [setup_model_for_question_answering, hc, ht, if_true, ha, hg,
    if_neg hne]

/-- Example model tree whose token-type table already has two rows (the
state after a first expansion). -/
def exQATree2 : Module :=
  .node [("bert", .node [
    ("embeddings", .node [
      ("word_embeddings", .leaf [[1, 2], [3, 4]] 2),
      ("token_type_embeddings", .leaf [[5, 6], [7, 8]] 2)])])]

def exQAModel2 : QAModel :=
  { tree := exQATree2
    config := { max_position_embeddings := some 512, vocab_size := some 40
                type_vocab_size := some 2, pad_token_id := none } }

/-- Witness for C7: a second call against the already-expanded 2-row table
leaves the tree unchanged. -/
theorem setup_qa_noop_on_expanded_witness :
    setup_model_for_question_answering [[9, 9]] exQAModel2
      = some { tree := exQAModel2.tree
               config := { exQAModel2.config with type_vocab_size := some 2 } } := by
  apply setup_qa_noop_on_expanded [[9, 9]] exQAModel2
    (.dict [("bert", .dict [("embeddings", .dict [("token_type_embeddings",
      .modRef (.leaf [[5, 6], [7, 8]] 2))])])])
    ["bert", "embeddings", "token_type_embeddings"] [[5, 6], [7, 8]] 2
  · simp [get_children_of_module, childrenEntries, exQAModel2, exQATree2,
      Children.truthy]
  · rfl
  · simp [attributeList]
  · simp [getAttrPath, exQAModel2, exQATree2, Module.childList, List.find?]
  · decide

/-! ## Claim theorems for the AngryTweets benchmark -/

/-- C8: when the train standard error is NaN the summary omits the `+-`
qualifier and reports only the two means; when it is a number the summary
carries mean and standard error for both splits; in both branches every
reported value is the metric value scaled by 100. -/
theorem log_metrics_two_branch (tm sm : ℚ) (te se : NanFloat) :
    (te = none →
      log_metrics (some tm) te (some sm) se
        = .withoutStdErr (some (tm * 100)) (some (sm * 100)))
    ∧ (∀ e s : ℚ, te = some e → se = some s →
        log_metrics (some tm) te (some sm) se
          = .withStdErr (some (tm * 100)) (some (e * 100))
              (some (sm * 100)) (some (s * 100))) := by
  constructor
  · intro h
    subst h
    rfl
  · intro e s he hs
    subst he
    subst hs
    rfl

/-- Witness for C8: one-repetition (NaN) and five-repetition (numeric)
instances, with means 0.5/0.75 reported as 50/75. -/
theorem log_metrics_two_branch_witness :
    log_metrics (some (1/2 : ℚ)) none (some (3/4)) none
      = .withoutStdErr (some ((1/2 : ℚ) * 100)) (some ((3/4 : ℚ) * 100))
    ∧ log_metrics (some (1/2 : ℚ)) (some (1/100)) (some (3/4)) (some (2/100))
      = .withStdErr (some ((1/2 : ℚ) * 100)) (some ((1/100 : ℚ) * 100))
          (some ((3/4 : ℚ) * 100)) (some ((2/100 : ℚ) * 100)) :=
  ⟨(log_metrics_two_branch (1/2) (3/4) none none).1 rfl,
   (log_metrics_two_branch (1/2) (3/4) (some (1/100)) (some (2/100))).2
     (1/100) (2/100) rfl rfl⟩

/-- C9: the metric computer first takes the per-example argmax along the
last axis and only then applies the macro-F1 reduction — so any two score
arrays with the same row-wise argmax get the same metrics — and the result
is the single-key mapping `macro_f1`. -/
theorem compute_metrics_argmax_then_macroF1
    (predictions predictions2 : List (List ℚ)) (labels : List Nat)
    (hsame : argmaxLastAxis predictions2 = argmaxLastAxis predictions) :
    compute_metrics predictions labels
      = [("macro_f1", macroF1 (argmaxLastAxis predictions) labels)]
    ∧ (compute_metrics predictions labels).map Prod.fst = ["macro_f1"]
    ∧ compute_metrics predictions2 labels = compute_metrics predictions labels := by
  refine ⟨rfl, rfl, ?_⟩
  unfold compute_metrics
  rw [hsame]

/-- Witness for C9: two score arrays (one a doubling of the other) with
equal row-wise argmax `[1, 0, 0]` over labels `[1, 0, 2]`. -/
theorem compute_metrics_argmax_then_macroF1_witness :
    compute_metrics [[1, 3, 2], [5, 0, 0], [2, 2, 2]] [1, 0, 2]
      = [("macro_f1",
          macroF1 (argmaxLastAxis [[1, 3, 2], [5, 0, 0], [2, 2, 2]]) [1, 0, 2])]
    ∧ (compute_metrics [[1, 3, 2], [5, 0, 0], [2, 2, 2]] [1, 0, 2]).map Prod.fst
        = ["macro_f1"]
    ∧ compute_metrics [[2, 6, 4], [10, 0, 0], [4, 4, 4]] [1, 0, 2]
        = compute_metrics [[1, 3, 2], [5, 0, 0], [2, 2, 2]] [1, 0, 2] :=
  compute_metrics_argmax_then_macroF1 [[1, 3, 2], [5, 0, 0], [2, 2, 2]]
    [[2, 6, 4], [10, 0, 0], [4, 4, 4]] [1, 0, 2] (by decide)

end ScandEval
